import Mathlib

/-!
Verification of the Norwegian tax calculation engine (`src/tax_calculator.rs`).

The Rust code computes over `f64` with only rational constants, additions,
subtractions, multiplications, divisions, comparisons and `max`/`min`; we embed
it shallowly with exact rational arithmetic (`ℚ`).  Breakdown vectors become
`List TaxBreakdownItem`, the `&mut Vec` pushes become returned item lists that
the callers append in the same order.  `format!("[:.0]", x)` (Rust's float
formatting with zero fractional digits) is modelled by round-half-to-even
rounding followed by decimal printing with a sign.
-/

inductive EntityType where
  | Individual
  | Corporation
  | Partnership
  | SoleProprietorship
deriving DecidableEq, Repr

structure TaxCalculationInput where
  gross_income : ℚ
  entity_type : EntityType
  municipal_tax_rate : ℚ
  county_tax_rate : ℚ
  church_tax_rate : ℚ
  is_church_member : Bool
  allowable_deductions : ℚ
  dividend_income : ℚ
  capital_gains : ℚ
  investment_wealth : ℚ
  business_expenses : ℚ
deriving DecidableEq, Repr

structure TaxBreakdownItem where
  description : String
  amount : ℚ
  rate : Option ℚ
deriving DecidableEq, Repr

structure TaxCalculationResult where
  gross_income : ℚ
  personal_allowance : ℚ
  taxable_income : ℚ
  municipal_tax : ℚ
  county_tax : ℚ
  church_tax : ℚ
  state_tax : ℚ
  corporate_tax : ℚ
  national_insurance : ℚ
  investment_tax : ℚ
  wealth_tax : ℚ
  total_tax : ℚ
  net_income : ℚ
  effective_tax_rate : ℚ
  breakdown : List TaxBreakdownItem
deriving DecidableEq, Repr

namespace NorwegianTaxCalculator

def PERSONAL_ALLOWANCE_2024 : ℚ := 69100

def CORPORATE_TAX_RATE_2024 : ℚ := 0.22

def NATIONAL_INSURANCE_RATE_2024 : ℚ := 0.077

def NATIONAL_INSURANCE_RATE_ENK_2024 : ℚ := 0.109

def INVESTMENT_TAX_RATE_2024 : ℚ := 0.3784

def WEALTH_TAX_RATE_2024 : ℚ := 0.01

def WEALTH_TAX_THRESHOLD_2024 : ℚ := 2000000

def RISK_FREE_RATE_2024 : ℚ := 0.0172

def STATE_TAX_BRACKETS : List (ℚ × ℚ) :=
  [(208050, 0.017), (292850, 0.04), (670000, 0.136), (937900, 0.166), (1350000, 0.176)]

/-- Round-half-to-even rounding of a rational to an integer, the rounding Rust
uses when formatting a float with zero fractional digits. -/
def roundHalfEven (q : ℚ) : ℤ :=
  let f : ℤ := ⌊q⌋
  let frac : ℚ := q - f
  if frac < 1/2 then f
  else if 1/2 < frac then f + 1
  else if f % 2 = 0 then f else f + 1

/-- Model of Rust `format!` of a float with zero fractional digits: decimal
digits of the rounded magnitude, preceded by a minus sign when the value is
negative. -/
def formatF0 (x : ℚ) : String :=
  if x < 0 then String.mk ('-' :: (Nat.repr (roundHalfEven (-x)).natAbs).data)
  else Nat.repr (roundHalfEven x).natAbs

/-- Model of Rust slice `chunks 3`: splits a list into consecutive runs of
three, the last run possibly shorter. -/
def chunks3 : List Char → List (List Char)
  | [] => []
  | [a] => [[a]]
  | [a, b] => [[a, b]]
  | a :: b :: c :: rest => [a, b, c] :: chunks3 rest

/-- Model of joining a vector of strings with a single-space separator. -/
def joinSpace : List (List Char) → List Char
  | [] => []
  | [c] => c
  | c :: cs => c ++ ' ' :: joinSpace cs

def format_currency (amount : ℚ) : String :=
  String.mk ((joinSpace (chunks3 (formatF0 amount).data.reverse)).reverse)

def calculate_state_tax (gross_income : ℚ) : ℚ × List TaxBreakdownItem :=
  STATE_TAX_BRACKETS.foldl (fun acc tb =>
    let threshold := tb.1
    let rate := tb.2
    if gross_income > threshold then
      let taxable_in_bracket :=
        min (gross_income - threshold)
          (((STATE_TAX_BRACKETS.find? (fun p => decide (p.1 > threshold))).map
              (fun p => p.1 - threshold)).getD (gross_income - threshold))
      let tax_in_bracket := taxable_in_bracket * rate
      (acc.1 + tax_in_bracket,
       acc.2 ++ [{ description := "Statsskatt (over " ++ format_currency threshold ++ " NOK)",
                   amount := tax_in_bracket,
                   rate := some (rate * 100) }])
    else acc) (0, [])

def calculate_investment_tax (input : TaxCalculationInput) : ℚ × List TaxBreakdownItem :=
  let total_investment_income := input.dividend_income + input.capital_gains
  if total_investment_income ≤ 0 then (0, [])
  else
    let risk_free_allowance := input.investment_wealth * RISK_FREE_RATE_2024
    let taxable_investment_income := max (total_investment_income - risk_free_allowance) 0
    let allowance_items : List TaxBreakdownItem :=
      if risk_free_allowance > 0 then
        [{ description := "Risikofritt fradrag",
           amount := -risk_free_allowance,
           rate := some (RISK_FREE_RATE_2024 * 100) }]
      else []
    let investment_tax := taxable_investment_income * INVESTMENT_TAX_RATE_2024
    let tax_items : List TaxBreakdownItem :=
      if investment_tax > 0 then
        [{ description := "Skatt på aksjeutbytte og gevinst",
           amount := investment_tax,
           rate := some (INVESTMENT_TAX_RATE_2024 * 100) }]
      else []
    (investment_tax, allowance_items ++ tax_items)

def calculate_corporate_investment_tax (input : TaxCalculationInput) :
    ℚ × List TaxBreakdownItem :=
  let total_investment_income := input.dividend_income + input.capital_gains
  if total_investment_income ≤ 0 then (0, [])
  else
    let taxable_portion := total_investment_income * 0.03
    let investment_tax := taxable_portion * CORPORATE_TAX_RATE_2024
    let tax_items : List TaxBreakdownItem :=
      if investment_tax > 0 then
        [{ description := "Deltakermodellen - 3% skattepliktig",
           amount := investment_tax,
           rate := some 0.66 }]
      else []
    (investment_tax, tax_items)

def calculate_wealth_tax (input : TaxCalculationInput) : ℚ × List TaxBreakdownItem :=
  let total_wealth := input.investment_wealth
  if total_wealth ≤ WEALTH_TAX_THRESHOLD_2024 then (0, [])
  else
    let taxable_wealth := total_wealth - WEALTH_TAX_THRESHOLD_2024
    let discounted_wealth := taxable_wealth * 0.8
    let wealth_tax := discounted_wealth * WEALTH_TAX_RATE_2024
    let tax_items : List TaxBreakdownItem :=
      if wealth_tax > 0 then
        [{ description := "Formueskatt (20% rabatt på aksjer)",
           amount := wealth_tax,
           rate := some (WEALTH_TAX_RATE_2024 * 100) }]
      else []
    (wealth_tax, tax_items)

def calculate_individual_tax (input : TaxCalculationInput) : TaxCalculationResult :=
  let personal_allowance := PERSONAL_ALLOWANCE_2024
  let taxable_income :=
    max (input.gross_income - personal_allowance - input.allowable_deductions) 0
  let allowance_item : TaxBreakdownItem :=
    { description := "Personfradrag", amount := -personal_allowance, rate := none }
  let deduction_items : List TaxBreakdownItem :=
    if input.allowable_deductions > 0 then
      [{ description := "Fradrag", amount := -input.allowable_deductions, rate := none }]
    else []
  let municipal_tax := taxable_income * (input.municipal_tax_rate / 100)
  let municipal_item : TaxBreakdownItem :=
    { description := "Kommuneskatt", amount := municipal_tax,
      rate := some input.municipal_tax_rate }
  let county_tax := taxable_income * (input.county_tax_rate / 100)
  let county_item : TaxBreakdownItem :=
    { description := "Fylkeskatt", amount := county_tax,
      rate := some input.county_tax_rate }
  let church_tax :=
    if input.is_church_member then taxable_income * (input.church_tax_rate / 100) else 0
  let church_items : List TaxBreakdownItem :=
    if input.is_church_member then
      [{ description := "Kirkeskatt", amount := taxable_income * (input.church_tax_rate / 100),
         rate := some input.church_tax_rate }]
    else []
  let state := calculate_state_tax input.gross_income
  let national_insurance := input.gross_income * NATIONAL_INSURANCE_RATE_2024
  let insurance_item : TaxBreakdownItem :=
    { description := "Trygdeavgift", amount := national_insurance,
      rate := some (NATIONAL_INSURANCE_RATE_2024 * 100) }
  let invest := calculate_investment_tax input
  let wealth := calculate_wealth_tax input
  let total_tax := municipal_tax + county_tax + church_tax + state.1
    + national_insurance + invest.1 + wealth.1
  let total_gross_income := input.gross_income + input.dividend_income + input.capital_gains
  let net_income := total_gross_income - total_tax
  let effective_tax_rate :=
    if total_gross_income > 0 then total_tax / total_gross_income * 100 else 0
  { gross_income := total_gross_income
    personal_allowance := personal_allowance
    taxable_income := taxable_income
    municipal_tax := municipal_tax
    county_tax := county_tax
    church_tax := church_tax
    state_tax := state.1
    corporate_tax := 0
    national_insurance := national_insurance
    investment_tax := invest.1
    wealth_tax := wealth.1
    total_tax := total_tax
    net_income := net_income
    effective_tax_rate := effective_tax_rate
    breakdown := allowance_item :: deduction_items ++ [municipal_item] ++ [county_item]
      ++ church_items ++ state.2 ++ [insurance_item] ++ invest.2 ++ wealth.2 }

def calculate_corporate_tax (input : TaxCalculationInput) : TaxCalculationResult :=
  let taxable_income := max (input.gross_income - input.allowable_deductions) 0
  let deduction_items : List TaxBreakdownItem :=
    if input.allowable_deductions > 0 then
      [{ description := "Fradrag", amount := -input.allowable_deductions, rate := none }]
    else []
  let corporate_tax := taxable_income * CORPORATE_TAX_RATE_2024
  let corporate_item : TaxBreakdownItem :=
    { description := "Selskapsskatt", amount := corporate_tax,
      rate := some (CORPORATE_TAX_RATE_2024 * 100) }
  let invest := calculate_corporate_investment_tax input
  let total_tax := corporate_tax + invest.1
  let total_gross_income := input.gross_income + input.dividend_income + input.capital_gains
  let net_income := total_gross_income - total_tax
  let effective_tax_rate :=
    if total_gross_income > 0 then total_tax / total_gross_income * 100 else 0
  { gross_income := total_gross_income
    personal_allowance := 0
    taxable_income := taxable_income
    municipal_tax := 0
    county_tax := 0
    church_tax := 0
    state_tax := 0
    corporate_tax := corporate_tax
    national_insurance := 0
    investment_tax := invest.1
    wealth_tax := 0
    total_tax := total_tax
    net_income := net_income
    effective_tax_rate := effective_tax_rate
    breakdown := deduction_items ++ [corporate_item] ++ invest.2 }

/-- The informational marker the partnership strategy inserts at index 0. -/
def partnershipMarker : TaxBreakdownItem :=
  { description := "Deltakerlignet selskap - beskattes som personinntekt",
    amount := 0, rate := none }

def calculate_partnership_tax (input : TaxCalculationInput) : TaxCalculationResult :=
  let result := calculate_individual_tax input
  { result with breakdown := partnershipMarker :: result.breakdown }

def calculate_enk_tax (input : TaxCalculationInput) : TaxCalculationResult :=
  let business_profit := max (input.gross_income - input.business_expenses) 0
  let taxable_income := max (business_profit - input.allowable_deductions) 0
  let enk_item : TaxBreakdownItem :=
    { description := "ENK - Enkeltpersonforetak", amount := 0, rate := none }
  let expense_items : List TaxBreakdownItem :=
    if input.business_expenses > 0 then
      [{ description := "Driftskostnader", amount := -input.business_expenses, rate := none }]
    else []
  let deduction_items : List TaxBreakdownItem :=
    if input.allowable_deductions > 0 then
      [{ description := "Fradrag", amount := -input.allowable_deductions, rate := none }]
    else []
  let municipal_tax := taxable_income * (input.municipal_tax_rate / 100)
  let municipal_item : TaxBreakdownItem :=
    { description := "Kommuneskatt", amount := municipal_tax,
      rate := some input.municipal_tax_rate }
  let county_tax := taxable_income * (input.county_tax_rate / 100)
  let county_item : TaxBreakdownItem :=
    { description := "Fylkeskatt", amount := county_tax,
      rate := some input.county_tax_rate }
  let church_tax :=
    if input.is_church_member then taxable_income * (input.church_tax_rate / 100) else 0
  let church_items : List TaxBreakdownItem :=
    if input.is_church_member then
      [{ description := "Kirkeskatt", amount := taxable_income * (input.church_tax_rate / 100),
         rate := some input.church_tax_rate }]
    else []
  let state := calculate_state_tax input.gross_income
  let national_insurance := input.gross_income * NATIONAL_INSURANCE_RATE_ENK_2024
  let insurance_item : TaxBreakdownItem :=
    { description := "Trygdeavgift (ENK)", amount := national_insurance,
      rate := some (NATIONAL_INSURANCE_RATE_ENK_2024 * 100) }
  let invest := calculate_investment_tax input
  let wealth := calculate_wealth_tax input
  let total_tax := municipal_tax + county_tax + church_tax + state.1
    + national_insurance + invest.1 + wealth.1
  let total_gross_income := input.gross_income + input.dividend_income + input.capital_gains
  let net_income := total_gross_income - total_tax
  let effective_tax_rate :=
    if total_gross_income > 0 then total_tax / total_gross_income * 100 else 0
  { gross_income := total_gross_income
    personal_allowance := 0
    taxable_income := taxable_income
    municipal_tax := municipal_tax
    county_tax := county_tax
    church_tax := church_tax
    state_tax := state.1
    corporate_tax := 0
    national_insurance := national_insurance
    investment_tax := invest.1
    wealth_tax := wealth.1
    total_tax := total_tax
    net_income := net_income
    effective_tax_rate := effective_tax_rate
    breakdown := enk_item :: expense_items ++ deduction_items ++ [municipal_item]
      ++ [county_item] ++ church_items ++ state.2 ++ [insurance_item]
      ++ invest.2 ++ wealth.2 }

def calculate_tax (input : TaxCalculationInput) : TaxCalculationResult :=
  match input.entity_type with
  | EntityType.Individual => calculate_individual_tax input
  | EntityType.Corporation => calculate_corporate_tax input
  | EntityType.Partnership => calculate_partnership_tax input
  | EntityType.SoleProprietorship => calculate_enk_tax input

def get_default_rates : ℚ × ℚ × ℚ := (10, 11.4, 1.3)

end NorwegianTaxCalculator

namespace NorwegianTaxCalculator

/-- Marginal contribution of one state-tax bracket with threshold `t`, rate `r`
and slice width `cap`: brackets whose threshold is strictly exceeded contribute
`min (gi - t) cap * r`. -/
def bracketContribution (gi t r cap : ℚ) : ℚ :=
  if gi > t then min (gi - t) cap * r else 0

def group3Aux : Nat → List Char → List Char
  | 0, l => l
  | n + 1, l =>
    if l.length ≤ 3 then l
    else group3Aux n (l.take (l.length - 3)) ++ ' ' :: l.drop (l.length - 3)

/-- Grouping of a digit string in threes counted from the least significant
digit, with a single space between groups, most significant group first. -/
def group3FromRight (l : List Char) : List Char := group3Aux l.length l

/-- The specification's description of the currency formatter: the whole-number
decimal digits of the rounded absolute magnitude of the amount, grouped in
threes from the least significant digit with single spaces, most significant
group first and no sign. -/
def formatCurrencySpec (x : ℚ) : String :=
  String.mk (group3FromRight (Nat.repr (roundHalfEven |x|).natAbs).data)

/-- The individual end-to-end sample input of the specification: gross income
600000, default rates, church member, no deductions or investments. -/
def sampleInput : TaxCalculationInput :=
  { gross_income := 600000, entity_type := EntityType.Individual,
    municipal_tax_rate := 10, county_tax_rate := 11.4, church_tax_rate := 1.3,
    is_church_member := true, allowable_deductions := 0, dividend_income := 0,
    capital_gains := 0, investment_wealth := 0, business_expenses := 0 }

def sampleCorpInput : TaxCalculationInput :=
  { sampleInput with entity_type := EntityType.Corporation }

def sampleEnkInput : TaxCalculationInput :=
  { sampleInput with entity_type := EntityType.SoleProprietorship,
                     business_expenses := 100000 }

def sampleZeroInput : TaxCalculationInput :=
  { sampleInput with gross_income := 0 }

/-- The investment-tax sample of the specification: dividends 50000, no capital
gains, investment wealth 1000000. -/
def sampleInvestInput : TaxCalculationInput :=
  { sampleInput with dividend_income := 50000, investment_wealth := 1000000 }

def sampleWealthInput : TaxCalculationInput :=
  { sampleInput with investment_wealth := 3000000 }

def sampleWealthBoundaryInput : TaxCalculationInput :=
  { sampleInput with investment_wealth := 2000000 }

lemma state_tax_eq_sum (gi : ℚ) :
    (calculate_state_tax gi).1 =
      bracketContribution gi 208050 0.017 (292850 - 208050)
      + bracketContribution gi 292850 0.04 (670000 - 292850)
      + bracketContribution gi 670000 0.136 (937900 - 670000)
      + bracketContribution gi 937900 0.166 (1350000 - 937900)
      + bracketContribution gi 1350000 0.176 (gi - 1350000) := by
  simp only [calculate_state_tax, STATE_TAX_BRACKETS, List.foldl, List.find?,
    bracketContribution]
  norm_num
  split_ifs <;> ring

lemma state_tax_items_length (gi : ℚ) :
    (calculate_state_tax gi).2.length =
      (if 208050 < gi then 1 else 0) + (if 292850 < gi then 1 else 0)
      + (if 670000 < gi then 1 else 0) + (if 937900 < gi then 1 else 0)
      + (if 1350000 < gi then 1 else 0) := by
  simp only [calculate_state_tax, STATE_TAX_BRACKETS, List.foldl, List.find?]
  norm_num
  split_ifs <;> simp

lemma bracketContribution_mono (t r cap : ℚ) (hr : 0 ≤ r) (hcap : 0 ≤ cap)
    {a b : ℚ} (hab : a ≤ b) :
    bracketContribution a t r cap ≤ bracketContribution b t r cap := by
  unfold bracketContribution
  split_ifs with h1 h2 h2
  · exact mul_le_mul_of_nonneg_right (min_le_min (by linarith) le_rfl) hr
  · linarith
  · exact mul_nonneg (le_min (by linarith) hcap) hr
  · exact le_rfl

lemma bracketContribution_last_mono (t r : ℚ) (hr : 0 ≤ r) {a b : ℚ} (hab : a ≤ b) :
    bracketContribution a t r (a - t) ≤ bracketContribution b t r (b - t) := by
  unfold bracketContribution
  simp only [min_self]
  split_ifs with h1 h2 h2
  · exact mul_le_mul_of_nonneg_right (by linarith) hr
  · linarith
  · exact mul_nonneg (by linarith) hr
  · exact le_rfl

end NorwegianTaxCalculator

namespace NorwegianTaxCalculator

lemma chunks3_ne_nil {l : List Char} (h : l ≠ []) : chunks3 l ≠ [] := by
  match l with
  | [] => exact absurd rfl h
  | [a] => simp [chunks3]
  | [a, b] => simp [chunks3]
  | a :: b :: c :: rest => simp [chunks3]

lemma chunks3_short {l : List Char} (hne : l ≠ []) (hlen : l.length ≤ 3) :
    chunks3 l = [l] := by
  match l with
  | [] => exact absurd rfl hne
  | [a] => simp [chunks3]
  | [a, b] => simp [chunks3]
  | [a, b, c] => simp [chunks3]
  | a :: b :: c :: d :: rest => simp at hlen

lemma joinSpace_cons (c : List Char) {cs : List (List Char)} (h : cs ≠ []) :
    joinSpace (c :: cs) = c ++ ' ' :: joinSpace cs := by
  match cs with
  | [] => exact absurd rfl h
  | d :: ds => rfl

lemma joinSpace_chunks3_reverse :
    ∀ (n : ℕ) (r : List Char), r.length ≤ n →
      (joinSpace (chunks3 r)).reverse = group3Aux n r.reverse := by
  intro n
  induction n with
  | zero =>
    intro r hr
    have : r = [] := List.length_eq_zero.mp (Nat.le_zero.mp hr)
    subst this
    simp [chunks3, joinSpace, group3Aux]
  | succ n ih =>
    intro r hr
    by_cases hne : r = []
    · subst hne
      simp [chunks3, joinSpace, group3Aux]
    by_cases hlen : r.length ≤ 3
    · rw [chunks3_short hne hlen]
      have : joinSpace [r] = r := rfl
      rw [this, group3Aux]
      rw [if_pos (by simpa using hlen)]
    · match r, hne, hlen, hr with
      | [], hne, _, _ => exact absurd rfl hne
      | [a], _, hlen, _ => exact absurd (by simp) hlen
      | [a, b], _, hlen, _ => exact absurd (by simp) hlen
      | [a, b, c], _, hlen, _ => exact absurd (by simp) hlen
      | a :: b :: c :: rest, _, hlen, hr2 =>
        have hrest : rest ≠ [] := by
          intro h
          subst h
          simp at hlen
        have hch : chunks3 (a :: b :: c :: rest) = [a, b, c] :: chunks3 rest := rfl
        rw [hch, joinSpace_cons _ (chunks3_ne_nil hrest)]
        have hrev : (a :: b :: c :: rest).reverse = rest.reverse ++ [c, b, a] := by
          simp
        rw [hrev, group3Aux]
        have hpos : 0 < rest.length := List.length_pos.mpr hrest
        have hlen2 : ¬ (rest.reverse ++ [c, b, a]).length ≤ 3 := by
          simp only [List.length_append, List.length_reverse, List.length_cons]
          omega
        rw [if_neg hlen2]
        have hL : (rest.reverse ++ [c, b, a]).length - 3 = rest.reverse.length := by
          simp
        rw [hL]
        rw [List.take_append_eq_append_take, List.take_length, Nat.sub_self,
          List.take_zero, List.append_nil]
        rw [List.drop_append_eq_append_drop, List.drop_length, Nat.sub_self,
          List.drop_zero, List.nil_append]
        have hr3 : rest.length ≤ n := by
          simp only [List.length_cons] at hr2
          omega
        rw [← ih rest hr3]
        simp

lemma format_currency_eq_group (x : ℚ) :
    format_currency x = String.mk (group3FromRight (formatF0 x).data) := by
  unfold format_currency group3FromRight
  have h := joinSpace_chunks3_reverse ((formatF0 x).data.reverse.length)
    ((formatF0 x).data.reverse) le_rfl
  simp only [List.reverse_reverse, List.length_reverse] at h
  rw [h]

lemma roundHalfEven_natCast (n : ℕ) : roundHalfEven (n : ℚ) = n := by
  unfold roundHalfEven
  norm_num

lemma formatF0_ofNat (n : ℕ) (x : ℚ) (hx : x = (n : ℚ)) : formatF0 x = Nat.repr n := by
  subst hx
  unfold formatF0
  rw [if_neg (not_lt.mpr (by positivity))]
  rw [roundHalfEven_natCast]
  simp

lemma format_currency_ofNat (n : ℕ) (x : ℚ) (hx : x = (n : ℚ)) :
    format_currency x = String.mk (group3FromRight (Nat.repr n).data) := by
  rw [format_currency_eq_group, formatF0_ofNat n x hx]

end NorwegianTaxCalculator

namespace NorwegianTaxCalculator

/-- Claim C1: for every input and entity type, `total_tax` is exactly the sum of
the category totals applicable to that entity type and every inapplicable
category total is exactly 0: for Corporation, `total_tax` is
`corporate_tax + investment_tax` and the personal categories are 0; for the
other three entity types, `total_tax` is the sum of the seven personal
categories and `corporate_tax` is 0. -/
theorem total_tax_is_sum_of_categories (input : TaxCalculationInput) :
    (input.entity_type = EntityType.Corporation →
      (calculate_tax input).total_tax =
        (calculate_tax input).corporate_tax + (calculate_tax input).investment_tax ∧
      (calculate_tax input).personal_allowance = 0 ∧
      (calculate_tax input).municipal_tax = 0 ∧
      (calculate_tax input).county_tax = 0 ∧
      (calculate_tax input).church_tax = 0 ∧
      (calculate_tax input).state_tax = 0 ∧
      (calculate_tax input).national_insurance = 0 ∧
      (calculate_tax input).wealth_tax = 0) ∧
    (input.entity_type ≠ EntityType.Corporation →
      (calculate_tax input).total_tax =
        (calculate_tax input).municipal_tax + (calculate_tax input).county_tax
        + (calculate_tax input).church_tax + (calculate_tax input).state_tax
        + (calculate_tax input).national_insurance + (calculate_tax input).investment_tax
        + (calculate_tax input).wealth_tax ∧
      (calculate_tax input).corporate_tax = 0) := by
  constructor
  · intro hC
    simp only [calculate_tax, hC]
    exact ⟨rfl, rfl, rfl, rfl, rfl, rfl, rfl, rfl⟩
  · intro hNC
    cases h : input.entity_type with
    | Individual =>
      simp only [calculate_tax, h]
      exact ⟨rfl, rfl⟩
    | Corporation => exact absurd h hNC
    | Partnership =>
      simp only [calculate_tax, h]
      exact ⟨rfl, rfl⟩
    | SoleProprietorship =>
      simp only [calculate_tax, h]
      exact ⟨rfl, rfl⟩

/-- Witness for C1 at the sample individual input. -/
theorem total_tax_is_sum_of_categories_witness :
    (calculate_tax sampleInput).total_tax =
      (calculate_tax sampleInput).municipal_tax + (calculate_tax sampleInput).county_tax
      + (calculate_tax sampleInput).church_tax + (calculate_tax sampleInput).state_tax
      + (calculate_tax sampleInput).national_insurance
      + (calculate_tax sampleInput).investment_tax
      + (calculate_tax sampleInput).wealth_tax ∧
    (calculate_tax sampleInput).corporate_tax = 0 :=
  (total_tax_is_sum_of_categories sampleInput).2 (by simp [sampleInput])

/-- Claim C2: the partnership strategy's result equals the individual strategy's
result on the same input, except that the informational marker item with amount
0 is inserted at index 0 of the breakdown; in particular all scalar totals
agree and the partnership breakdown's tail is exactly the individual
breakdown. -/
theorem partnership_tax_delegates (input : TaxCalculationInput) :
    calculate_partnership_tax input =
      { calculate_individual_tax input with
          breakdown := partnershipMarker :: (calculate_individual_tax input).breakdown } ∧
    partnershipMarker.amount = 0 ∧
    (calculate_partnership_tax input).breakdown.head? = some partnershipMarker ∧
    (calculate_partnership_tax input).breakdown.tail =
      (calculate_individual_tax input).breakdown :=
  ⟨rfl, rfl, rfl, rfl⟩

/-- Witness for C2 at the sample individual input. -/
theorem partnership_tax_delegates_witness :
    (calculate_partnership_tax sampleInput).breakdown.head? = some partnershipMarker ∧
    (calculate_partnership_tax sampleInput).breakdown.tail =
      (calculate_individual_tax sampleInput).breakdown :=
  ⟨(partnership_tax_delegates sampleInput).2.2.1,
   (partnership_tax_delegates sampleInput).2.2.2⟩

/-- Claim C3: the state-tax helper performs a marginal bracket sweep: every
bracket whose threshold is strictly exceeded contributes
`min (income - threshold) (nextThreshold - threshold) * rate` (`income -
threshold` for the last bracket) and emits exactly one breakdown item; for
gross income 0 it returns 0 with no items, and for 1350001 the total equals the
closed-form marginal sum over all five brackets. -/
theorem state_tax_bracket_sweep :
    (∀ gi : ℚ,
      (calculate_state_tax gi).1 =
        bracketContribution gi 208050 0.017 (292850 - 208050)
        + bracketContribution gi 292850 0.04 (670000 - 292850)
        + bracketContribution gi 670000 0.136 (937900 - 670000)
        + bracketContribution gi 937900 0.166 (1350000 - 937900)
        + bracketContribution gi 1350000 0.176 (gi - 1350000) ∧
      (calculate_state_tax gi).2.length =
        (if 208050 < gi then 1 else 0) + (if 292850 < gi then 1 else 0)
        + (if 670000 < gi then 1 else 0) + (if 937900 < gi then 1 else 0)
        + (if 1350000 < gi then 1 else 0)) ∧
    calculate_state_tax 0 = (0, []) ∧
    (calculate_state_tax 1350001).1 =
      (292850 - 208050) * 0.017 + (670000 - 292850) * 0.04
      + (937900 - 670000) * 0.136 + (1350000 - 937900) * 0.166
      + (1350001 - 1350000) * 0.176 := by
  refine ⟨fun gi => ⟨state_tax_eq_sum gi, state_tax_items_length gi⟩, ?_, ?_⟩
  · norm_num [calculate_state_tax, STATE_TAX_BRACKETS, List.foldl]
  · norm_num [calculate_state_tax, STATE_TAX_BRACKETS, List.foldl, List.find?]

/-- Witness for C3: the bracket decomposition instantiated at gross income
600000. -/
theorem state_tax_bracket_sweep_witness :
    (calculate_state_tax 600000).1 =
      bracketContribution 600000 208050 0.017 (292850 - 208050)
      + bracketContribution 600000 292850 0.04 (670000 - 292850)
      + bracketContribution 600000 670000 0.136 (937900 - 670000)
      + bracketContribution 600000 937900 0.166 (1350000 - 937900)
      + bracketContribution 600000 1350000 0.176 (600000 - 1350000) :=
  (state_tax_bracket_sweep.1 600000).1

/-- Claim C4: for every input and entity type the result's `gross_income` is
the total economic income (nominal gross income plus dividend income plus
capital gains), `net_income` is that total minus `total_tax`, and
`effective_tax_rate` is `total_tax` divided by the total economic income times
100 when the total is strictly positive and 0 when the total is at most 0. -/
theorem result_income_identities (input : TaxCalculationInput) :
    (calculate_tax input).gross_income =
      input.gross_income + input.dividend_income + input.capital_gains ∧
    (calculate_tax input).net_income =
      input.gross_income + input.dividend_income + input.capital_gains
        - (calculate_tax input).total_tax ∧
    (0 < input.gross_income + input.dividend_income + input.capital_gains →
      (calculate_tax input).effective_tax_rate =
        (calculate_tax input).total_tax
          / (input.gross_income + input.dividend_income + input.capital_gains) * 100) ∧
    (input.gross_income + input.dividend_income + input.capital_gains ≤ 0 →
      (calculate_tax input).effective_tax_rate = 0) := by
  cases h : input.entity_type <;>
    simp only [calculate_tax, h] <;>
    exact ⟨rfl, rfl, fun h2 => if_pos h2, fun h2 => if_neg (not_lt.mpr h2)⟩

/-- Witness for C4 at the sample individual input, whose total economic income
600000 is positive. -/
theorem result_income_identities_witness :
    0 < sampleInput.gross_income + sampleInput.dividend_income + sampleInput.capital_gains ∧
    (calculate_tax sampleInput).effective_tax_rate =
      (calculate_tax sampleInput).total_tax
        / (sampleInput.gross_income + sampleInput.dividend_income
            + sampleInput.capital_gains) * 100 :=
  ⟨by norm_num [sampleInput],
   (result_income_identities sampleInput).2.2.1 (by norm_num [sampleInput])⟩

/-- Claim C5: the wealth-tax helper returns
`(investment_wealth - 2000000) * 0.8 * 0.01` with exactly one breakdown item
when the wealth strictly exceeds 2000000 and `(0, [])` otherwise; the boundary
is exclusive, so 2000000 yields 0 with no item while 3000000 yields 8000 with
one item. -/
theorem wealth_tax_thresholded (input : TaxCalculationInput) :
    (2000000 < input.investment_wealth →
      calculate_wealth_tax input =
        ((input.investment_wealth - 2000000) * 0.8 * 0.01,
         [{ description := "Formueskatt (20% rabatt på aksjer)",
            amount := (input.investment_wealth - 2000000) * 0.8 * 0.01,
            rate := some 1 }])) ∧
    (input.investment_wealth ≤ 2000000 →
      calculate_wealth_tax input = (0, [])) ∧
    calculate_wealth_tax sampleWealthBoundaryInput = (0, []) ∧
    calculate_wealth_tax sampleWealthInput =
      (8000,
       [{ description := "Formueskatt (20% rabatt på aksjer)", amount := 8000,
          rate := some 1 }]) := by
  refine ⟨fun h => ?_, fun h => ?_, ?_, ?_⟩
  · simp only [calculate_wealth_tax, WEALTH_TAX_THRESHOLD_2024, WEALTH_TAX_RATE_2024]
    rw [if_neg (not_le.mpr h)]
    rw [if_pos (show ((input.investment_wealth - 2000000) * 0.8 * 0.01 : ℚ) > 0 by nlinarith)]
    norm_num
  · simp only [calculate_wealth_tax, WEALTH_TAX_THRESHOLD_2024]
    rw [if_pos h]
  · norm_num [calculate_wealth_tax, WEALTH_TAX_THRESHOLD_2024,
      sampleWealthBoundaryInput, sampleInput]
  · norm_num [calculate_wealth_tax, WEALTH_TAX_THRESHOLD_2024, WEALTH_TAX_RATE_2024,
      sampleWealthInput, sampleInput]

/-- Witness for C5 at investment wealth 3000000. -/
theorem wealth_tax_thresholded_witness :
    (2000000 : ℚ) < sampleWealthInput.investment_wealth ∧
    calculate_wealth_tax sampleWealthInput =
      ((sampleWealthInput.investment_wealth - 2000000) * 0.8 * 0.01,
       [{ description := "Formueskatt (20% rabatt på aksjer)",
          amount := (sampleWealthInput.investment_wealth - 2000000) * 0.8 * 0.01,
          rate := some 1 }]) :=
  ⟨by norm_num [sampleWealthInput, sampleInput],
   (wealth_tax_thresholded sampleWealthInput).1
     (by norm_num [sampleWealthInput, sampleInput])⟩

/-- Claim C6: the personal investment-tax helper returns `(0, [])` whenever
dividend income plus capital gains is at most 0; otherwise it returns
`max 0 (income - wealth * 0.0172) * 0.3784`, emits the negative allowance item
exactly when the allowance is strictly positive and the tax item exactly when
the tax is strictly positive; for dividends 50000, no gains and wealth 1000000
the allowance is 17200 and the tax is 12411.52. -/
theorem investment_tax_personal_rules (input : TaxCalculationInput) :
    (input.dividend_income + input.capital_gains ≤ 0 →
      calculate_investment_tax input = (0, [])) ∧
    (0 < input.dividend_income + input.capital_gains →
      (calculate_investment_tax input).1 =
        max 0 (input.dividend_income + input.capital_gains
          - input.investment_wealth * 0.0172) * 0.3784 ∧
      (calculate_investment_tax input).2 =
        (if 0 < input.investment_wealth * 0.0172 then
          [{ description := "Risikofritt fradrag",
             amount := -(input.investment_wealth * 0.0172),
             rate := some 1.72 }]
         else []) ++
        (if 0 < max 0 (input.dividend_income + input.capital_gains
              - input.investment_wealth * 0.0172) * 0.3784 then
          [{ description := "Skatt på aksjeutbytte og gevinst",
             amount := max 0 (input.dividend_income + input.capital_gains
               - input.investment_wealth * 0.0172) * 0.3784,
             rate := some 37.84 }]
         else []) ) ∧
    calculate_investment_tax sampleInvestInput =
      (12411.52,
       [{ description := "Risikofritt fradrag", amount := -17200, rate := some 1.72 },
        { description := "Skatt på aksjeutbytte og gevinst", amount := 12411.52,
          rate := some 37.84 }]) := by
  refine ⟨fun h => ?_, fun h => ?_, ?_⟩
  · simp only [calculate_investment_tax]
    rw [if_pos h]
  · simp only [calculate_investment_tax, RISK_FREE_RATE_2024, INVESTMENT_TAX_RATE_2024]
    rw [if_neg (not_le.mpr h)]
    constructor
    · rw [max_comm]
    · norm_num [max_comm]
  · norm_num [calculate_investment_tax, sampleInvestInput, sampleInput,
      RISK_FREE_RATE_2024, INVESTMENT_TAX_RATE_2024, max_def]

/-- Witness for C6 at the sample individual input, whose investment income
0 is not positive. -/
theorem investment_tax_personal_rules_witness :
    sampleInput.dividend_income + sampleInput.capital_gains ≤ 0 ∧
    calculate_investment_tax sampleInput = (0, []) :=
  ⟨by norm_num [sampleInput],
   (investment_tax_personal_rules sampleInput).1 (by norm_num [sampleInput])⟩

/-- Claim C7: under SoleProprietorship, `taxable_income` is
`max 0 (max 0 (gross_income - business_expenses) - allowable_deductions)` with
the two clampings applied independently, and `national_insurance` is
`gross_income * 0.109` on the raw gross income. -/
theorem enk_bases (input : TaxCalculationInput) :
    (calculate_enk_tax input).taxable_income =
      max 0 (max 0 (input.gross_income - input.business_expenses)
        - input.allowable_deductions) ∧
    (calculate_enk_tax input).national_insurance = input.gross_income * 0.109 := by
  constructor
  · have h : (calculate_enk_tax input).taxable_income =
        max (max (input.gross_income - input.business_expenses) 0
          - input.allowable_deductions) 0 := rfl
    rw [h, max_comm _ (0 : ℚ), max_comm _ (0 : ℚ)]
  · rfl

/-- Witness for C7 at the sample sole-proprietorship input. -/
theorem enk_bases_witness :
    (calculate_enk_tax sampleEnkInput).taxable_income =
      max 0 (max 0 (sampleEnkInput.gross_income - sampleEnkInput.business_expenses)
        - sampleEnkInput.allowable_deductions) ∧
    (calculate_enk_tax sampleEnkInput).national_insurance =
      sampleEnkInput.gross_income * 0.109 :=
  enk_bases sampleEnkInput

/-- Claim C8 (amended): for every nonnegative amount the formatter's output is
the whole-number decimal digits of the rounded magnitude grouped in threes from
the least significant digit with single spaces, most significant group first;
for negative amounts the minus sign of the rounded value is carried through the
grouping, so the output is not sign-independent. -/
theorem format_currency_grouping :
    (∀ x : ℚ, 0 ≤ x → format_currency x = formatCurrencySpec x) ∧
    format_currency 0 = "0" ∧
    format_currency 999 = "999" ∧
    format_currency 1000 = "1 000" ∧
    format_currency 600000 = "600 000" ∧
    format_currency 1234567 = "1 234 567" ∧
    format_currency (-600000) = "- 600 000" := by
  refine ⟨fun x hx => ?_, ?_, ?_, ?_, ?_, ?_, ?_⟩
  · rw [format_currency_eq_group, formatCurrencySpec]
    have h1 : formatF0 x = Nat.repr (roundHalfEven x).natAbs := by
      unfold formatF0
      rw [if_neg (not_lt.mpr hx)]
    rw [h1, abs_of_nonneg hx]
  · rw [format_currency_ofNat 0 0 (by norm_num)]
    rfl
  · rw [format_currency_ofNat 999 999 (by norm_num)]
    rfl
  · rw [format_currency_ofNat 1000 1000 (by norm_num)]
    rfl
  · rw [format_currency_ofNat 600000 600000 (by norm_num)]
    rfl
  · rw [format_currency_ofNat 1234567 1234567 (by norm_num)]
    rfl
  · have h : formatF0 (-600000) = String.mk ('-' :: (Nat.repr 600000).data) := by
      unfold formatF0
      rw [if_pos (by norm_num)]
      have h2 : roundHalfEven (-(-600000) : ℚ) = ((600000 : ℕ) : ℤ) := by
        rw [show (-(-600000) : ℚ) = ((600000 : ℕ) : ℚ) by norm_num]
        exact roundHalfEven_natCast 600000
      rw [h2]
      rfl
    rw [format_currency, h]
    rfl

/-- Witness for C8 at the amount 1234567. -/
theorem format_currency_grouping_witness :
    (0 : ℚ) ≤ 1234567 ∧ format_currency 1234567 = formatCurrencySpec 1234567 :=
  ⟨by norm_num, format_currency_grouping.1 1234567 (by norm_num)⟩

/-- Counterexample for C8 as stated: at the amount -1 the formatter keeps the
minus sign, so its output differs from the sign-independent grouping of the
rounded absolute magnitude that the claim asserts. -/
theorem format_currency_sign_counterexample :
    format_currency (-1 : ℚ) = "-1" ∧ formatCurrencySpec (-1 : ℚ) = "1" ∧
    format_currency (-1 : ℚ) ≠ formatCurrencySpec (-1 : ℚ) := by
  have h1 : format_currency (-1 : ℚ) = "-1" := by
    have h : formatF0 (-1) = "-1" := by
      unfold formatF0
      rw [if_pos (by norm_num)]
      have h2 : roundHalfEven (-(-1) : ℚ) = ((1 : ℕ) : ℤ) := by
        rw [show (-(-1) : ℚ) = ((1 : ℕ) : ℚ) by norm_num]
        exact roundHalfEven_natCast 1
      rw [h2]
      rfl
    rw [format_currency, h]
    rfl
  have h2 : formatCurrencySpec (-1 : ℚ) = "1" := by
    unfold formatCurrencySpec
    rw [show |(-1 : ℚ)| = ((1 : ℕ) : ℚ) by norm_num, roundHalfEven_natCast]
    rfl
  refine ⟨h1, h2, ?_⟩
  rw [h1, h2]
  decide

/-- Claim C9: the state-tax total is monotone non-decreasing in gross income. -/
theorem state_tax_monotone {a b : ℚ} (hab : a ≤ b) :
    (calculate_state_tax a).1 ≤ (calculate_state_tax b).1 := by
  rw [state_tax_eq_sum a, state_tax_eq_sum b]
  have h1 := bracketContribution_mono 208050 0.017 (292850 - 208050)
    (by norm_num) (by norm_num) hab
  have h2 := bracketContribution_mono 292850 0.04 (670000 - 292850)
    (by norm_num) (by norm_num) hab
  have h3 := bracketContribution_mono 670000 0.136 (937900 - 670000)
    (by norm_num) (by norm_num) hab
  have h4 := bracketContribution_mono 937900 0.166 (1350000 - 937900)
    (by norm_num) (by norm_num) hab
  have h5 := bracketContribution_last_mono 1350000 0.176 (by norm_num) hab
  linarith

/-- Witness for C9 at incomes 600000 and 1350001. -/
theorem state_tax_monotone_witness :
    (600000 : ℚ) ≤ 1350001 ∧
    (calculate_state_tax 600000).1 ≤ (calculate_state_tax 1350001).1 :=
  ⟨by norm_num, state_tax_monotone (by norm_num)⟩

/-- Claim C10: for every input the individual strategy's breakdown is non-empty,
its first item is the personal-allowance deduction with amount exactly -69100
and no rate, and the result's `personal_allowance` field is exactly 69100,
regardless of the gross income. -/
theorem individual_allowance_item (input : TaxCalculationInput) :
    (calculate_individual_tax input).breakdown.head? =
      some { description := "Personfradrag", amount := -69100, rate := none } ∧
    (calculate_individual_tax input).personal_allowance = 69100 ∧
    (calculate_individual_tax input).breakdown ≠ [] :=
  ⟨rfl, rfl, List.cons_ne_nil _ _⟩

/-- Witness for C10 at the gross income 0 input. -/
theorem individual_allowance_item_witness :
    (calculate_individual_tax sampleZeroInput).breakdown.head? =
      some { description := "Personfradrag", amount := -69100, rate := none } ∧
    (calculate_individual_tax sampleZeroInput).personal_allowance = 69100 :=
  ⟨(individual_allowance_item sampleZeroInput).1,
   (individual_allowance_item sampleZeroInput).2.1⟩

end NorwegianTaxCalculator
